import Mathlib

/-!
Verification of the Azure provisioning code of cloud-prepare
(`pkg/azure/azure.go` and `pkg/azure/securitygroups.go`).

The Go code is a linear sequence of calls into the Azure network-management
SDK. We embed it shallowly: the SDK is modelled as an oracle (`AzureApi`)
giving the outcome of each remote call, and each Go function becomes a Lean
function that returns its error result together with the ordered trace of
API calls it issued and the reporter events it emitted. Errors are modelled
as their message strings; `errors.Wrapf` on a non-nil error prepends
`"msg: "` and maps nil to nil, exactly as in github.com/pkg/errors.

The gateway-port and load-balancer helpers (`openGWPorts`,
`createSubmarinerLoadBalancingRules`, `removeGWFirewallRules`,
`deleteSubmarinerLoadBalancingRules`) live in files of the repository that
are not part of this snapshot. At their call sites in azure.go they receive
no reporter, so with respect to the reporter and the security-group API they
are opaque steps that either succeed or return an error; we model their
outcomes as parameters (`gwStep`, `lbStep`) quantified over in every
theorem. Likewise `pkg/api`'s `PortSpec` is reconstructed from its uses in
azure.go (`port.Port` printed with %d, `port.Protocol` with %s).

Note on the snapshot: `openInternalPorts` in securitygroups.go takes a
reporter parameter and emits two debug events on it, but the call site in
azure.go (`az.openInternalPorts(az.InfraID, input.InternalPorts, nsgClient)`)
supplies no reporter; the events it would emit are therefore kept in the
`CallResult.reporter` field of `openInternalPorts` itself and are not part
of the trace of `PrepareForSubmariner`, matching azure.go as written.
-/

namespace CloudPrepare

/-- Errors are modelled by their message string (`error.Error()` in Go). -/
abbrev Err := String

/-- `errors.Wrapf(err, ...)` on a non-nil error: the formatted message,
a colon-space separator, then the cause's message. -/
def wrapErr (msg : String) (e : Err) : Err := msg ++ ": " ++ e

/-- `errors.Wrapf(err, ...)` in general: nil stays nil, otherwise wrap. -/
def wrapErrOpt (msg : String) (e : Option Err) : Option Err := e.map (wrapErr msg)

/-- Go's `%q` verb on a plain string: surrounding double quotes.
(Escaping of special characters inside the string is elided; the strings
interpolated by this code are identifiers and port lists.) -/
def goQ (s : String) : String := "\"" ++ s ++ "\""

/-- Go's `int32(n)` conversion: wrap into `[-2^31, 2^31)`. -/
def int32ofInt (n : Int) : Int := (n + 2 ^ 31) % 2 ^ 32 - 2 ^ 31

/-- `api.PortSpec` (pkg/api, not in the snapshot): a port number
(`Port uint16`, printed with %d) and a protocol string (%s). -/
structure PortSpec where
  Port : Nat
  Protocol : String
  deriving DecidableEq

/-- A subnet as returned by the subnets client. The SDK struct is opaque to
this code (it is only fetched and stored); we retain an identifying name. -/
structure Subnet where
  name : String
  deriving DecidableEq

/-- `network.SecurityRule` restricted to the fields this code sets. -/
structure SecurityRule where
  Name : String
  Protocol : String
  DestinationPortRange : String
  SourceAddressPrefix : String
  DestinationAddressPrefix : String
  SourcePortRange : String
  Access : String
  Direction : String
  Priority : Int
  deriving DecidableEq

/-- `network.SecurityGroup` restricted to the fields this code reads or
writes (`Name`, `Location`, and the properties' `SecurityRules`/`Subnets`;
`nil` pointers / slices are `none`). -/
structure SecurityGroup where
  Name : Option String
  Location : Option String
  SecurityRules : Option (List SecurityRule)
  Subnets : Option (List Subnet)
  deriving DecidableEq

/-- `CloudInfo` (securitygroups.go) minus the SDK handles (`Authorizer`,
`K8sClient`), which carry no data the modelled code inspects. -/
structure CloudInfo where
  SubscriptionID : String
  InfraID : String
  Region : String
  BaseGroupName : String
  deriving DecidableEq

-- Constants from azure.go.
def internalSecurityGroupSuffix : String := "-nsg"
def internalSecurityRulePrefix : String := "Submariner-Internal-"
def allNetworkCIDR : String := "0.0.0.0/0"
def basePriority : Int := 100

/-- One remote call issued against the Azure API, in the order issued.
`nsgWaitCreateOrUpdate` / `nsgWaitDelete` are `WaitForCompletionRef` on the
future returned by the corresponding call. -/
inductive ApiCall where
  | nsgGet (resourceGroup groupName : String)
  | subnetGet (resourceGroup vnetName subnetName : String)
  | nsgCreateOrUpdate (resourceGroup groupName : String) (sg : SecurityGroup)
  | nsgWaitCreateOrUpdate
  | nsgDelete (resourceGroup groupName : String)
  | nsgWaitDelete
  deriving DecidableEq

/-- One event on an `api.Reporter`. -/
inductive ReporterEvent where
  | started (msg : String)
  | succeeded (msg : String)
  | failed (err : Err)
  deriving DecidableEq

/-- The provisioning / teardown steps of azure.go, as they are attempted. -/
inductive Step where
  | openGWPorts
  | createLBRules
  | openInternalPorts
  | removeGWFirewallRules
  | deleteLBRules
  | removeInternalFirewallRules
  deriving DecidableEq

/-- The environment: the outcome of each remote call the modelled code can
make. A `WaitForCompletionRef` outcome is `none` for success, `some e` for
failure; the two update-style waits are distinguished per call site. -/
structure AzureApi where
  nsgGet : String → String → Except Err SecurityGroup
  subnetGet : String → String → String → Except Err Subnet
  nsgCreateOrUpdate : String → String → SecurityGroup → Except Err Unit
  nsgWaitCreate : Option Err
  nsgWaitUpdate : Option Err
  nsgDelete : String → String → Except Err Unit
  nsgWaitDelete : Option Err

/-- Result of one securitygroups.go function: the returned error, the API
calls issued in order, and the events emitted on its reporter parameter. -/
structure CallResult where
  err : Option Err
  calls : List ApiCall
  reporter : List ReporterEvent
  deriving DecidableEq

/-- Result of a top-level azure.go entry point: returned error, events on
the caller's reporter, the steps attempted in order, and the API calls the
modelled (security-group) step issued. -/
structure OpResult where
  err : Option Err
  reporter : List ReporterEvent
  steps : List Step
  calls : List ApiCall
  deriving DecidableEq

/-- `createSecurityRule` (securitygroups.go): builds one inbound Allow rule.
`SecurityRuleAccessAllow` and `SecurityRuleDirectionInbound` are the SDK
string constants "Allow" and "Inbound". -/
def createSecurityRule (_c : CloudInfo) (srcIPPrefix destIPPrefix protocol : String)
    (port : Nat) (priority : Int) : SecurityRule :=
  { Name := internalSecurityRulePrefix ++ protocol ++ "-" ++ toString port
    Protocol := protocol
    DestinationPortRange := toString port ++ "-" ++ toString port
    SourceAddressPrefix := srcIPPrefix
    DestinationAddressPrefix := destIPPrefix
    SourcePortRange := "*"
    Access := "Allow"
    Direction := "Inbound"
    Priority := priority }

/-- The `for i, port := range ports` loop of `openInternalPorts`, building
one rule per port with priority `int32(basePriority + i)`; `i` is the
running index. -/
def internalSecurityRulesAux (c : CloudInfo) (i : Nat) : List PortSpec → List SecurityRule
  | [] => []
  | port :: rest =>
      createSecurityRule c allNetworkCIDR allNetworkCIDR port.Protocol port.Port
        (int32ofInt (basePriority + (i : Int))) :: internalSecurityRulesAux c (i + 1) rest

/-- The rule list `openInternalPorts` builds for a port list. -/
def internalSecurityRules (c : CloudInfo) (ports : List PortSpec) : List SecurityRule :=
  internalSecurityRulesAux c 0 ports

/-- `checkIfSecurityGroupPresent` (securitygroups.go): issues a Get and
returns `err == nil`. -/
def checkIfSecurityGroupPresent (api : AzureApi) (groupName baseGroupName : String) : Bool :=
  match api.nsgGet baseGroupName groupName with
  | .ok _ => true
  | .error _ => false

/-- `getSubnet` (securitygroups.go): Get the subnet; on failure wrap with
`error getting the subnet %q` — the source passes the error itself as the
`%q` argument. -/
def getSubnet (api : AzureApi) (virtualNetworkName subnetName baseGroupName : String) :
    Except Err Subnet :=
  match api.subnetGet baseGroupName virtualNetworkName subnetName with
  | .error e => .error (wrapErr ("error getting the subnet " ++ goQ e) e)
  | .ok subnet => .ok subnet

/-- `openInternalPorts` (securitygroups.go): if the group `infraID ++ "-nsg"`
already exists, return nil at once; otherwise build the rules, fetch worker
and master subnets, create the group over both subnets and wait for the
operation. The two reporter events are the debug Started/Succeeded it emits
on its own reporter parameter (note the source prints the worker subnet
under the `masterSubnet =` label and vice versa). -/
def openInternalPorts (c : CloudInfo) (api : AzureApi) (infraID : String)
    (ports : List PortSpec) : CallResult :=
  let groupName := infraID ++ internalSecurityGroupSuffix
  let getCall := ApiCall.nsgGet c.BaseGroupName groupName
  if checkIfSecurityGroupPresent api groupName c.BaseGroupName then
    { err := none, calls := [getCall], reporter := [] }
  else
    let securityRules := internalSecurityRules c ports
    let vnetName := infraID ++ "-vnet"
    let workerSubnetName := infraID ++ "-worker-subnet"
    let masterSubnetName := infraID ++ "-master-subnet"
    let wCall := ApiCall.subnetGet c.BaseGroupName vnetName workerSubnetName
    match getSubnet api vnetName workerSubnetName c.BaseGroupName with
    | .error e =>
        { err := some (wrapErr ("failed to retrieve subnet " ++ goQ (infraID ++ "-worker-subnet")) e)
          calls := [getCall, wCall], reporter := [] }
    | .ok workerSubnet =>
      let mCall := ApiCall.subnetGet c.BaseGroupName vnetName masterSubnetName
      match getSubnet api vnetName masterSubnetName c.BaseGroupName with
      | .error e =>
          { err := some (wrapErr ("failed to retrieve subnet " ++ goQ (infraID ++ "-master-subnet")) e)
            calls := [getCall, wCall, mCall], reporter := [] }
      | .ok masterSubnet =>
        let ev1 := ReporterEvent.started ("The subnets are masterSubnet = " ++ workerSubnet.name
          ++ " , workerSubnet = " ++ masterSubnet.name)
        let subnets := [workerSubnet, masterSubnet]
        let nwSecurityGroup : SecurityGroup :=
          { Name := some groupName
            Location := some c.Region
            SecurityRules := some securityRules
            Subnets := some subnets }
        let ev2 := ReporterEvent.succeeded ("The subnets "
          ++ String.intercalate ", " (subnets.map Subnet.name))
        let couCall := ApiCall.nsgCreateOrUpdate c.BaseGroupName groupName nwSecurityGroup
        match api.nsgCreateOrUpdate c.BaseGroupName groupName nwSecurityGroup with
        | .error e =>
            { err := some (wrapErr ("creating security group " ++ goQ groupName ++ " failed") e)
              calls := [getCall, wCall, mCall, couCall], reporter := [ev1, ev2] }
        | .ok _ =>
            { err := wrapErrOpt ("Error creating  security group " ++ groupName ++ " ")
                api.nsgWaitCreate
              calls := [getCall, wCall, mCall, couCall, ApiCall.nsgWaitCreateOrUpdate]
              reporter := [ev1, ev2] }

/-- `removeInternalFirewallRules` (securitygroups.go): Get the group, write
it back with `Subnets = nil` and wait, then Delete it and wait; each failure
returns a wrapped error at once. The final `errors.WithMessage(err, ...)`
acts on a nil `err` and thus returns nil. -/
def removeInternalFirewallRules (c : CloudInfo) (api : AzureApi) (infraID : String) :
    CallResult :=
  let groupName := infraID ++ internalSecurityGroupSuffix
  let getCall := ApiCall.nsgGet c.BaseGroupName groupName
  match api.nsgGet c.BaseGroupName groupName with
  | .error e =>
      { err := some (wrapErr ("error getting the securitygroup " ++ goQ groupName) e)
        calls := [getCall], reporter := [] }
  | .ok nwSecurityGroup =>
    let sg := { nwSecurityGroup with Subnets := none }
    let couCall := ApiCall.nsgCreateOrUpdate c.BaseGroupName groupName sg
    match api.nsgCreateOrUpdate c.BaseGroupName groupName sg with
    | .error e =>
        { err := some (wrapErr ("removing security group " ++ goQ groupName
            ++ " from subnets failed") e)
          calls := [getCall, couCall], reporter := [] }
    | .ok _ =>
      match api.nsgWaitUpdate with
      | some e =>
          { err := some (wrapErr ("waiting for security group  " ++ goQ groupName
              ++ " to be updated failed") e)
            calls := [getCall, couCall, .nsgWaitCreateOrUpdate], reporter := [] }
      | none =>
        let delCall := ApiCall.nsgDelete c.BaseGroupName groupName
        match api.nsgDelete c.BaseGroupName groupName with
        | .error e =>
            { err := some (wrapErr ("deleting security group " ++ goQ groupName ++ " failed") e)
              calls := [getCall, couCall, .nsgWaitCreateOrUpdate, delCall], reporter := [] }
        | .ok _ =>
          match api.nsgWaitDelete with
          | some e =>
              { err := some (wrapErr ("waiting for security group  " ++ goQ groupName
                  ++ " to be deleted failed") e)
                calls := [getCall, couCall, .nsgWaitCreateOrUpdate, delCall, .nsgWaitDelete]
                reporter := [] }
          | none =>
              { err := none
                calls := [getCall, couCall, .nsgWaitCreateOrUpdate, delCall, .nsgWaitDelete]
                reporter := [] }

/-- `formatPorts` (azure.go): append `"Port/Protocol"` for each port in
order, then `strings.Join(portStrs, ", ")`. -/
def formatPorts (ports : List PortSpec) : String :=
  String.intercalate ", "
    (ports.foldl (fun portStrs port => portStrs ++ [toString port.Port ++ "/" ++ port.Protocol]) [])

/-- The Started message of `PrepareForSubmariner`. -/
def prepareStartedMsg : String := "Opening internal ports for intra-cluster communications on RHOS"

/-- The Started message of `CleanupAfterSubmariner`. -/
def cleanupStartedMsg : String := "Revoking intra-cluster communication permissions"

/-- `PrepareForSubmariner` (azure.go): report Started; run the gateway-port
step, the load-balancing-rule step (both outside this snapshot, outcomes
`gwStep`/`lbStep`) and `openInternalPorts`; on the first error report Failed
and return it, otherwise report Succeeded with the formatted port list.
azure.go passes no reporter to `openInternalPorts`, so only azure.go's own
events appear here; `calls` records what the internal-ports step issued. -/
def PrepareForSubmariner (c : CloudInfo) (api : AzureApi) (gwStep lbStep : Option Err)
    (ports : List PortSpec) : OpResult :=
  let startEv := ReporterEvent.started prepareStartedMsg
  match gwStep with
  | some e =>
      { err := some e, reporter := [startEv, .failed e], steps := [.openGWPorts], calls := [] }
  | none =>
    match lbStep with
    | some e =>
        { err := some e, reporter := [startEv, .failed e]
          steps := [.openGWPorts, .createLBRules], calls := [] }
    | none =>
      let r := openInternalPorts c api c.InfraID ports
      match r.err with
      | some e =>
          { err := some e, reporter := [startEv, .failed e]
            steps := [.openGWPorts, .createLBRules, .openInternalPorts], calls := r.calls }
      | none =>
          { err := none
            reporter := [startEv, .succeeded ("Opened internal ports " ++ goQ (formatPorts ports)
              ++ " for intra-cluster communications on RHOS")]
            steps := [.openGWPorts, .createLBRules, .openInternalPorts], calls := r.calls }

/-- `CleanupAfterSubmariner` (azure.go): report Started; run the
gateway-rule removal and load-balancer-rule deletion steps (outside this
snapshot, outcomes `gwStep`/`lbStep`) and `removeInternalFirewallRules`; on
the first error report Failed and return it, else report Succeeded. -/
def CleanupAfterSubmariner (c : CloudInfo) (api : AzureApi) (gwStep lbStep : Option Err) :
    OpResult :=
  let startEv := ReporterEvent.started cleanupStartedMsg
  match gwStep with
  | some e =>
      { err := some e, reporter := [startEv, .failed e]
        steps := [.removeGWFirewallRules], calls := [] }
  | none =>
    match lbStep with
    | some e =>
        { err := some e, reporter := [startEv, .failed e]
          steps := [.removeGWFirewallRules, .deleteLBRules], calls := [] }
    | none =>
      let r := removeInternalFirewallRules c api c.InfraID
      match r.err with
      | some e =>
          { err := some e, reporter := [startEv, .failed e]
            steps := [.removeGWFirewallRules, .deleteLBRules, .removeInternalFirewallRules]
            calls := r.calls }
      | none =>
          { err := none
            reporter := [startEv, .succeeded "Revoked intra-cluster communication permissions"]
            steps := [.removeGWFirewallRules, .deleteLBRules, .removeInternalFirewallRules]
            calls := r.calls }

/-- Effect of one API call on the set of existing security groups
(identified by resource group and name): CreateOrUpdate makes the group
exist, Delete removes it, reads and waits change nothing. -/
def applyCall (groups : List (String × String)) : ApiCall → List (String × String)
  | .nsgCreateOrUpdate rg gn _ => if (rg, gn) ∈ groups then groups else (rg, gn) :: groups
  | .nsgDelete rg gn => groups.filter (fun p => decide (p ≠ (rg, gn)))
  | _ => groups

/-- Effect of a call trace, applied left to right. -/
def applyCalls (groups : List (String × String)) (calls : List ApiCall) :
    List (String × String) :=
  calls.foldl applyCall groups

/-! ### Branch characterizations of `openInternalPorts` -/

/-- When the Get of the internal group succeeds, `openInternalPorts` stops
after that single call. -/
theorem openInternalPorts_group_present (c : CloudInfo) (api : AzureApi) (infraID : String)
    (ports : List PortSpec) (sg : SecurityGroup)
    (h : api.nsgGet c.BaseGroupName (infraID ++ internalSecurityGroupSuffix) = .ok sg) :
    openInternalPorts c api infraID ports =
      { err := none
        calls := [.nsgGet c.BaseGroupName (infraID ++ internalSecurityGroupSuffix)]
        reporter := [] } := by
  simp [openInternalPorts, checkIfSecurityGroupPresent, h]

/-- When the group is absent and the worker-subnet lookup fails. -/
theorem openInternalPorts_worker_subnet_error (c : CloudInfo) (api : AzureApi) (infraID : String)
    (ports : List PortSpec) (e eW : Err)
    (h : api.nsgGet c.BaseGroupName (infraID ++ internalSecurityGroupSuffix) = .error e)
    (hw : api.subnetGet c.BaseGroupName (infraID ++ "-vnet") (infraID ++ "-worker-subnet") =
      .error eW) :
    openInternalPorts c api infraID ports =
      { err := some (wrapErr ("failed to retrieve subnet " ++ goQ (infraID ++ "-worker-subnet"))
          (wrapErr ("error getting the subnet " ++ goQ eW) eW))
        calls := [.nsgGet c.BaseGroupName (infraID ++ internalSecurityGroupSuffix),
          .subnetGet c.BaseGroupName (infraID ++ "-vnet") (infraID ++ "-worker-subnet")]
        reporter := [] } := by
  simp [openInternalPorts, checkIfSecurityGroupPresent, getSubnet, h, hw]

/-- When the group is absent, the worker-subnet lookup succeeds and the
master-subnet lookup fails. -/
theorem openInternalPorts_master_subnet_error (c : CloudInfo) (api : AzureApi) (infraID : String)
    (ports : List PortSpec) (e : Err) (w : Subnet) (eM : Err)
    (h : api.nsgGet c.BaseGroupName (infraID ++ internalSecurityGroupSuffix) = .error e)
    (hw : api.subnetGet c.BaseGroupName (infraID ++ "-vnet") (infraID ++ "-worker-subnet") = .ok w)
    (hm : api.subnetGet c.BaseGroupName (infraID ++ "-vnet") (infraID ++ "-master-subnet") =
      .error eM) :
    openInternalPorts c api infraID ports =
      { err := some (wrapErr ("failed to retrieve subnet " ++ goQ (infraID ++ "-master-subnet"))
          (wrapErr ("error getting the subnet " ++ goQ eM) eM))
        calls := [.nsgGet c.BaseGroupName (infraID ++ internalSecurityGroupSuffix),
          .subnetGet c.BaseGroupName (infraID ++ "-vnet") (infraID ++ "-worker-subnet"),
          .subnetGet c.BaseGroupName (infraID ++ "-vnet") (infraID ++ "-master-subnet")]
        reporter := [] } := by
  simp [openInternalPorts, checkIfSecurityGroupPresent, getSubnet, h, hw, hm]

/-- The security group `openInternalPorts` submits to CreateOrUpdate. -/
def builtSecurityGroup (c : CloudInfo) (infraID : String) (ports : List PortSpec)
    (w m : Subnet) : SecurityGroup :=
  { Name := some (infraID ++ internalSecurityGroupSuffix)
    Location := some c.Region
    SecurityRules := some (internalSecurityRules c ports)
    Subnets := some [w, m] }

/-- The debug reporter events `openInternalPorts` emits before
CreateOrUpdate. -/
def openInternalPortsEvents (w m : Subnet) : List ReporterEvent :=
  [.started ("The subnets are masterSubnet = " ++ w.name ++ " , workerSubnet = " ++ m.name),
   .succeeded ("The subnets " ++ String.intercalate ", " ([w, m].map Subnet.name))]

/-- When the group is absent, both subnet lookups succeed and the
CreateOrUpdate call itself fails. -/
theorem openInternalPorts_createOrUpdate_error (c : CloudInfo) (api : AzureApi) (infraID : String)
    (ports : List PortSpec) (e : Err) (w m : Subnet) (eC : Err)
    (h : api.nsgGet c.BaseGroupName (infraID ++ internalSecurityGroupSuffix) = .error e)
    (hw : api.subnetGet c.BaseGroupName (infraID ++ "-vnet") (infraID ++ "-worker-subnet") = .ok w)
    (hm : api.subnetGet c.BaseGroupName (infraID ++ "-vnet") (infraID ++ "-master-subnet") = .ok m)
    (hc : api.nsgCreateOrUpdate c.BaseGroupName (infraID ++ internalSecurityGroupSuffix)
      (builtSecurityGroup c infraID ports w m) = .error eC) :
    openInternalPorts c api infraID ports =
      { err := some (wrapErr ("creating security group "
          ++ goQ (infraID ++ internalSecurityGroupSuffix) ++ " failed") eC)
        calls := [.nsgGet c.BaseGroupName (infraID ++ internalSecurityGroupSuffix),
          .subnetGet c.BaseGroupName (infraID ++ "-vnet") (infraID ++ "-worker-subnet"),
          .subnetGet c.BaseGroupName (infraID ++ "-vnet") (infraID ++ "-master-subnet"),
          .nsgCreateOrUpdate c.BaseGroupName (infraID ++ internalSecurityGroupSuffix)
            (builtSecurityGroup c infraID ports w m)]
        reporter := openInternalPortsEvents w m } := by
  simp [openInternalPorts, checkIfSecurityGroupPresent, getSubnet, h, hw, hm,
    builtSecurityGroup, openInternalPortsEvents] at hc ⊢
  simp [hc]

/-- When the group is absent, both subnet lookups succeed and CreateOrUpdate
returns a future: the function waits on the future and returns the (wrapped)
wait outcome. -/
theorem openInternalPorts_createOrUpdate_ok (c : CloudInfo) (api : AzureApi) (infraID : String)
    (ports : List PortSpec) (e : Err) (w m : Subnet)
    (h : api.nsgGet c.BaseGroupName (infraID ++ internalSecurityGroupSuffix) = .error e)
    (hw : api.subnetGet c.BaseGroupName (infraID ++ "-vnet") (infraID ++ "-worker-subnet") = .ok w)
    (hm : api.subnetGet c.BaseGroupName (infraID ++ "-vnet") (infraID ++ "-master-subnet") = .ok m)
    (hc : api.nsgCreateOrUpdate c.BaseGroupName (infraID ++ internalSecurityGroupSuffix)
      (builtSecurityGroup c infraID ports w m) = .ok ()) :
    openInternalPorts c api infraID ports =
      { err := wrapErrOpt ("Error creating  security group "
          ++ (infraID ++ internalSecurityGroupSuffix) ++ " ") api.nsgWaitCreate
        calls := [.nsgGet c.BaseGroupName (infraID ++ internalSecurityGroupSuffix),
          .subnetGet c.BaseGroupName (infraID ++ "-vnet") (infraID ++ "-worker-subnet"),
          .subnetGet c.BaseGroupName (infraID ++ "-vnet") (infraID ++ "-master-subnet"),
          .nsgCreateOrUpdate c.BaseGroupName (infraID ++ internalSecurityGroupSuffix)
            (builtSecurityGroup c infraID ports w m),
          .nsgWaitCreateOrUpdate]
        reporter := openInternalPortsEvents w m } := by
  simp [openInternalPorts, checkIfSecurityGroupPresent, getSubnet, h, hw, hm,
    builtSecurityGroup, openInternalPortsEvents] at hc ⊢
  simp [hc]

/-! ### Branch characterizations of `removeInternalFirewallRules` -/

/-- When the Get of the internal group fails, `removeInternalFirewallRules`
returns the wrapped error after that single call. -/
theorem removeInternalFirewallRules_get_error (c : CloudInfo) (api : AzureApi) (infraID : String)
    (e : Err)
    (h : api.nsgGet c.BaseGroupName (infraID ++ internalSecurityGroupSuffix) = .error e) :
    removeInternalFirewallRules c api infraID =
      { err := some (wrapErr ("error getting the securitygroup "
          ++ goQ (infraID ++ internalSecurityGroupSuffix)) e)
        calls := [.nsgGet c.BaseGroupName (infraID ++ internalSecurityGroupSuffix)]
        reporter := [] } := by
  simp [removeInternalFirewallRules, h]

/-- When Get succeeds but the subnet-detaching CreateOrUpdate call fails. -/
theorem removeInternalFirewallRules_update_error (c : CloudInfo) (api : AzureApi)
    (infraID : String) (sg : SecurityGroup) (e : Err)
    (h : api.nsgGet c.BaseGroupName (infraID ++ internalSecurityGroupSuffix) = .ok sg)
    (hu : api.nsgCreateOrUpdate c.BaseGroupName (infraID ++ internalSecurityGroupSuffix)
      { sg with Subnets := none } = .error e) :
    removeInternalFirewallRules c api infraID =
      { err := some (wrapErr ("removing security group "
          ++ goQ (infraID ++ internalSecurityGroupSuffix) ++ " from subnets failed") e)
        calls := [.nsgGet c.BaseGroupName (infraID ++ internalSecurityGroupSuffix),
          .nsgCreateOrUpdate c.BaseGroupName (infraID ++ internalSecurityGroupSuffix)
            { sg with Subnets := none }]
        reporter := [] } := by
  simp [removeInternalFirewallRules, h, hu]

/-- When Get and the update call succeed but waiting for the update fails. -/
theorem removeInternalFirewallRules_wait_update_error (c : CloudInfo) (api : AzureApi)
    (infraID : String) (sg : SecurityGroup) (e : Err)
    (h : api.nsgGet c.BaseGroupName (infraID ++ internalSecurityGroupSuffix) = .ok sg)
    (hu : api.nsgCreateOrUpdate c.BaseGroupName (infraID ++ internalSecurityGroupSuffix)
      { sg with Subnets := none } = .ok ())
    (hwu : api.nsgWaitUpdate = some e) :
    removeInternalFirewallRules c api infraID =
      { err := some (wrapErr ("waiting for security group  "
          ++ goQ (infraID ++ internalSecurityGroupSuffix) ++ " to be updated failed") e)
        calls := [.nsgGet c.BaseGroupName (infraID ++ internalSecurityGroupSuffix),
          .nsgCreateOrUpdate c.BaseGroupName (infraID ++ internalSecurityGroupSuffix)
            { sg with Subnets := none },
          .nsgWaitCreateOrUpdate]
        reporter := [] } := by
  simp [removeInternalFirewallRules, h, hu, hwu]

/-- When the update completes but the Delete call fails. -/
theorem removeInternalFirewallRules_delete_error (c : CloudInfo) (api : AzureApi)
    (infraID : String) (sg : SecurityGroup) (e : Err)
    (h : api.nsgGet c.BaseGroupName (infraID ++ internalSecurityGroupSuffix) = .ok sg)
    (hu : api.nsgCreateOrUpdate c.BaseGroupName (infraID ++ internalSecurityGroupSuffix)
      { sg with Subnets := none } = .ok ())
    (hwu : api.nsgWaitUpdate = none)
    (hd : api.nsgDelete c.BaseGroupName (infraID ++ internalSecurityGroupSuffix) = .error e) :
    removeInternalFirewallRules c api infraID =
      { err := some (wrapErr ("deleting security group "
          ++ goQ (infraID ++ internalSecurityGroupSuffix) ++ " failed") e)
        calls := [.nsgGet c.BaseGroupName (infraID ++ internalSecurityGroupSuffix),
          .nsgCreateOrUpdate c.BaseGroupName (infraID ++ internalSecurityGroupSuffix)
            { sg with Subnets := none },
          .nsgWaitCreateOrUpdate,
          .nsgDelete c.BaseGroupName (infraID ++ internalSecurityGroupSuffix)]
        reporter := [] } := by
  simp [removeInternalFirewallRules, h, hu, hwu, hd]

/-- When Get, update, update-wait and Delete all go through: the result is
the (wrapped) outcome of waiting for the deletion. -/
theorem removeInternalFirewallRules_delete_ok (c : CloudInfo) (api : AzureApi)
    (infraID : String) (sg : SecurityGroup)
    (h : api.nsgGet c.BaseGroupName (infraID ++ internalSecurityGroupSuffix) = .ok sg)
    (hu : api.nsgCreateOrUpdate c.BaseGroupName (infraID ++ internalSecurityGroupSuffix)
      { sg with Subnets := none } = .ok ())
    (hwu : api.nsgWaitUpdate = none)
    (hd : api.nsgDelete c.BaseGroupName (infraID ++ internalSecurityGroupSuffix) = .ok ()) :
    removeInternalFirewallRules c api infraID =
      { err := wrapErrOpt ("waiting for security group  "
          ++ goQ (infraID ++ internalSecurityGroupSuffix) ++ " to be deleted failed")
          api.nsgWaitDelete
        calls := [.nsgGet c.BaseGroupName (infraID ++ internalSecurityGroupSuffix),
          .nsgCreateOrUpdate c.BaseGroupName (infraID ++ internalSecurityGroupSuffix)
            { sg with Subnets := none },
          .nsgWaitCreateOrUpdate,
          .nsgDelete c.BaseGroupName (infraID ++ internalSecurityGroupSuffix),
          .nsgWaitDelete]
        reporter := [] } := by
  cases hwd : api.nsgWaitDelete with
  | some e => simp [removeInternalFirewallRules, h, hu, hwu, hd, hwd, wrapErrOpt]
  | none => simp [removeInternalFirewallRules, h, hu, hwu, hd, hwd, wrapErrOpt]

/-! ### Concrete environments for witnesses and counterexamples -/

/-- A concrete `CloudInfo`. -/
def cinfo : CloudInfo :=
  { SubscriptionID := "sub", InfraID := "infra", Region := "eastus", BaseGroupName := "rg" }

/-- The pre-existing internal security group used by the fixtures. -/
def sgExisting : SecurityGroup :=
  { Name := some "infra-nsg", Location := some "eastus", SecurityRules := none
    Subnets := some [⟨"infra-worker-subnet"⟩, ⟨"infra-master-subnet"⟩] }

/-- Environment in which the internal security group already exists and all
calls succeed. -/
def apiGroupExists : AzureApi :=
  { nsgGet := fun _ _ => .ok sgExisting
    subnetGet := fun _ _ subnetName => .ok ⟨subnetName⟩
    nsgCreateOrUpdate := fun _ _ _ => .ok ()
    nsgWaitCreate := none
    nsgWaitUpdate := none
    nsgDelete := fun _ _ => .ok ()
    nsgWaitDelete := none }

/-- Environment in which the internal security group does not exist (every
Get of it fails with "nf") and all other calls succeed. -/
def apiFresh : AzureApi :=
  { nsgGet := fun _ _ => .error "nf"
    subnetGet := fun _ _ subnetName => .ok ⟨subnetName⟩
    nsgCreateOrUpdate := fun _ _ _ => .ok ()
    nsgWaitCreate := none
    nsgWaitUpdate := none
    nsgDelete := fun _ _ => .ok ()
    nsgWaitDelete := none }

/-! ### Claims -/

/-- C1: every invocation of `PrepareForSubmariner` and of
`CleanupAfterSubmariner` reports Started first; if a step fails, Failed is
reported with that error and the same error is returned; if every step
succeeds, Succeeded is reported and nil is returned; exactly one of
Failed/Succeeded is reported per call (the reporter trace is exactly the
Started event followed by exactly one terminal event). -/
theorem prepare_cleanup_reporter_protocol (c : CloudInfo) (api : AzureApi)
    (gwStep lbStep gwStep2 lbStep2 : Option Err) (ports : List PortSpec) :
    ((PrepareForSubmariner c api gwStep lbStep ports).reporter.head? =
      some (.started prepareStartedMsg) ∧
      ((∃ e, (PrepareForSubmariner c api gwStep lbStep ports).err = some e ∧
          (PrepareForSubmariner c api gwStep lbStep ports).reporter =
            [.started prepareStartedMsg, .failed e]) ∨
        ((PrepareForSubmariner c api gwStep lbStep ports).err = none ∧
          ∃ m, (PrepareForSubmariner c api gwStep lbStep ports).reporter =
            [.started prepareStartedMsg, .succeeded m]))) ∧
    ((CleanupAfterSubmariner c api gwStep2 lbStep2).reporter.head? =
      some (.started cleanupStartedMsg) ∧
      ((∃ e, (CleanupAfterSubmariner c api gwStep2 lbStep2).err = some e ∧
          (CleanupAfterSubmariner c api gwStep2 lbStep2).reporter =
            [.started cleanupStartedMsg, .failed e]) ∨
        ((CleanupAfterSubmariner c api gwStep2 lbStep2).err = none ∧
          ∃ m, (CleanupAfterSubmariner c api gwStep2 lbStep2).reporter =
            [.started cleanupStartedMsg, .succeeded m]))) := by
  constructor
  · cases gwStep with
    | some e => simp [PrepareForSubmariner]
    | none =>
      cases lbStep with
      | some e => simp [PrepareForSubmariner]
      | none =>
        cases h : (openInternalPorts c api c.InfraID ports).err with
        | some e => simp [PrepareForSubmariner, h]
        | none => simp [PrepareForSubmariner, h]
  · cases gwStep2 with
    | some e => simp [CleanupAfterSubmariner]
    | none =>
      cases lbStep2 with
      | some e => simp [CleanupAfterSubmariner]
      | none =>
        cases h : (removeInternalFirewallRules c api c.InfraID).err with
        | some e => simp [CleanupAfterSubmariner, h]
        | none => simp [CleanupAfterSubmariner, h]

/-- C4: `PrepareForSubmariner` attempts its steps in the fixed order
gateway ports, load-balancing rules, internal ports; a later step is never
attempted once an earlier one failed, and the first error encountered is
the one returned. -/
theorem prepare_steps_linear_order (c : CloudInfo) (api : AzureApi)
    (gwStep lbStep : Option Err) (ports : List PortSpec) :
    (PrepareForSubmariner c api gwStep lbStep ports).steps =
      (match gwStep, lbStep with
        | some _, _ => [Step.openGWPorts]
        | none, some _ => [Step.openGWPorts, Step.createLBRules]
        | none, none => [Step.openGWPorts, Step.createLBRules, Step.openInternalPorts]) ∧
    (PrepareForSubmariner c api gwStep lbStep ports).err =
      (match gwStep, lbStep with
        | some e, _ => some e
        | none, some e => some e
        | none, none => (openInternalPorts c api c.InfraID ports).err) := by
  cases gwStep with
  | some e => simp [PrepareForSubmariner]
  | none =>
    cases lbStep with
    | some e => simp [PrepareForSubmariner]
    | none =>
      cases h : (openInternalPorts c api c.InfraID ports).err with
      | some e => simp [PrepareForSubmariner, h]
      | none => simp [PrepareForSubmariner, h]

/-- C2: if the Get of the group `infraID ++ "-nsg"` in `BaseGroupName`
succeeds, `openInternalPorts` returns nil after that one call, issuing no
subnet lookup and no CreateOrUpdate, and a repeated `PrepareForSubmariner`
(earlier steps succeeding) returns nil without a second creation. -/
theorem openInternalPorts_idempotent_existing_group (c : CloudInfo) (api : AzureApi)
    (ports : List PortSpec) (sg : SecurityGroup)
    (hget : api.nsgGet c.BaseGroupName (c.InfraID ++ internalSecurityGroupSuffix) = .ok sg) :
    openInternalPorts c api c.InfraID ports =
      { err := none
        calls := [.nsgGet c.BaseGroupName (c.InfraID ++ internalSecurityGroupSuffix)]
        reporter := [] } ∧
    (∀ call ∈ (openInternalPorts c api c.InfraID ports).calls,
      (∀ rg vn sn, call ≠ .subnetGet rg vn sn) ∧
      (∀ rg gn g, call ≠ .nsgCreateOrUpdate rg gn g)) ∧
    (PrepareForSubmariner c api none none ports).err = none ∧
    (∀ call ∈ (PrepareForSubmariner c api none none ports).calls,
      ∀ rg gn g, call ≠ .nsgCreateOrUpdate rg gn g) := by
  have h1 := openInternalPorts_group_present c api c.InfraID ports sg hget
  refine ⟨h1, ?_, ?_, ?_⟩
  · rw [h1]
    intro call hc
    simp only [List.mem_singleton] at hc
    subst hc
    simp
  · simp [PrepareForSubmariner, h1]
  · simp only [PrepareForSubmariner, h1]
    intro call hc
    simp only [List.mem_singleton] at hc
    subst hc
    simp

/-- C2 witness at a concrete environment where the group already exists. -/
theorem openInternalPorts_idempotent_existing_group_witness :
    openInternalPorts cinfo apiGroupExists cinfo.InfraID [⟨4500, "UDP"⟩] =
      { err := none, calls := [.nsgGet "rg" "infra-nsg"], reporter := [] } ∧
    (PrepareForSubmariner cinfo apiGroupExists none none [⟨4500, "UDP"⟩]).err = none := by
  have h := openInternalPorts_idempotent_existing_group cinfo apiGroupExists
    [⟨4500, "UDP"⟩] sgExisting rfl
  exact ⟨h.1, h.2.2.1⟩

/-- C9: `checkIfSecurityGroupPresent` is true exactly when the Get returns
no error; any failure of the Get — whatever the cause — counts as absence,
and `openInternalPorts` then proceeds past the existence check to the
subnet lookups. -/
theorem checkIfSecurityGroupPresent_iff_get_ok (api : AzureApi) (c : CloudInfo)
    (infraID : String) (ports : List PortSpec) :
    (∀ groupName baseGroupName,
      checkIfSecurityGroupPresent api groupName baseGroupName = true ↔
        ∃ sg, api.nsgGet baseGroupName groupName = .ok sg) ∧
    (∀ e, api.nsgGet c.BaseGroupName (infraID ++ internalSecurityGroupSuffix) = .error e →
      ApiCall.subnetGet c.BaseGroupName (infraID ++ "-vnet") (infraID ++ "-worker-subnet") ∈
        (openInternalPorts c api infraID ports).calls) := by
  constructor
  · intro gn bgn
    cases hg : api.nsgGet bgn gn with
    | ok sg => simp [checkIfSecurityGroupPresent, hg]
    | error e => simp [checkIfSecurityGroupPresent, hg]
  · intro e he
    cases hw : api.subnetGet c.BaseGroupName (infraID ++ "-vnet")
        (infraID ++ "-worker-subnet") with
    | error eW =>
      rw [openInternalPorts_worker_subnet_error c api infraID ports e eW he hw]
      simp
    | ok w =>
      cases hm : api.subnetGet c.BaseGroupName (infraID ++ "-vnet")
          (infraID ++ "-master-subnet") with
      | error eM =>
        rw [openInternalPorts_master_subnet_error c api infraID ports e w eM he hw hm]
        simp
      | ok m =>
        cases hc : api.nsgCreateOrUpdate c.BaseGroupName (infraID ++ internalSecurityGroupSuffix)
            (builtSecurityGroup c infraID ports w m) with
        | error eC =>
          rw [openInternalPorts_createOrUpdate_error c api infraID ports e w m eC he hw hm hc]
          simp
        | ok u =>
          cases u
          rw [openInternalPorts_createOrUpdate_ok c api infraID ports e w m he hw hm hc]
          simp

/-- C9 witness: a concrete failing Get leads `openInternalPorts` into the
worker-subnet lookup. -/
theorem checkIfSecurityGroupPresent_iff_get_ok_witness :
    apiFresh.nsgGet "rg" "infra-nsg" = .error "nf" ∧
    ApiCall.subnetGet "rg" "infra-vnet" "infra-worker-subnet" ∈
      (openInternalPorts cinfo apiFresh "infra" []).calls :=
  ⟨rfl, (checkIfSecurityGroupPresent_iff_get_ok apiFresh cinfo "infra" []).2 "nf" rfl⟩

/-- C3 counterexample: when the internal security group no longer exists
(the Get fails, as on a second cleanup after a successful one) and the two
earlier steps succeed, `CleanupAfterSubmariner` returns a non-nil error and
reports Failed — it does not return nil and report success as the claim
states. -/
theorem cleanup_missing_group_cex :
    (CleanupAfterSubmariner cinfo apiFresh none none).err =
      some "error getting the securitygroup \"infra-nsg\": nf" ∧
    ¬((CleanupAfterSubmariner cinfo apiFresh none none).err = none ∧
      (CleanupAfterSubmariner cinfo apiFresh none none).reporter =
        [.started cleanupStartedMsg,
         .succeeded "Revoked intra-cluster communication permissions"]) ∧
    (CleanupAfterSubmariner cinfo apiFresh none none).reporter =
      [.started cleanupStartedMsg,
       .failed "error getting the securitygroup \"infra-nsg\": nf"] := by
  refine ⟨rfl, ?_, rfl⟩
  intro h
  exact Option.noConfusion (h.1.symm.trans rfl)

/-- C3 (amended): invoking `CleanupAfterSubmariner` when the internal
security group `infraID ++ "-nsg"` no longer exists (and the earlier steps
succeed) returns the wrapped Get error and reports Failed with it, rather
than nil and success; no update or delete of the group is attempted. -/
theorem cleanup_missing_group_reports_failed (c : CloudInfo) (api : AzureApi) (e : Err)
    (hget : api.nsgGet c.BaseGroupName (c.InfraID ++ internalSecurityGroupSuffix) = .error e) :
    (CleanupAfterSubmariner c api none none).err =
      some (wrapErr ("error getting the securitygroup "
        ++ goQ (c.InfraID ++ internalSecurityGroupSuffix)) e) ∧
    (CleanupAfterSubmariner c api none none).reporter =
      [.started cleanupStartedMsg,
       .failed (wrapErr ("error getting the securitygroup "
        ++ goQ (c.InfraID ++ internalSecurityGroupSuffix)) e)] ∧
    (CleanupAfterSubmariner c api none none).calls =
      [.nsgGet c.BaseGroupName (c.InfraID ++ internalSecurityGroupSuffix)] := by
  have h1 := removeInternalFirewallRules_get_error c api c.InfraID e hget
  refine ⟨?_, ?_, ?_⟩ <;> simp [CleanupAfterSubmariner, h1]

/-- C3 (amended) witness at the concrete missing-group environment. -/
theorem cleanup_missing_group_reports_failed_witness :
    apiFresh.nsgGet "rg" "infra-nsg" = .error "nf" ∧
    (CleanupAfterSubmariner cinfo apiFresh none none).err =
      some "error getting the securitygroup \"infra-nsg\": nf" :=
  ⟨rfl, (cleanup_missing_group_reports_failed cinfo apiFresh "nf" rfl).1⟩

/-- Accumulator form of the `formatPorts` loop equals map. -/
theorem formatPorts_foldl_eq_map (f : PortSpec → String) :
    ∀ (ports : List PortSpec) (acc : List String),
      ports.foldl (fun portStrs port => portStrs ++ [f port]) acc = acc ++ ports.map f
  | [], acc => by simp
  | p :: rest, acc => by
      simp [List.foldl_cons, formatPorts_foldl_eq_map f rest (acc ++ [f p])]

/-- C10: `formatPorts` yields the strings `"Port/Protocol"` of the ports in
list order joined by `", "` (the empty string for the empty list), and this
exact string, quoted by `%q`, appears in the Succeeded message of a
successful `PrepareForSubmariner`. -/
theorem formatPorts_spec (ports : List PortSpec) (c : CloudInfo) (api : AzureApi) :
    formatPorts ports =
      String.intercalate ", " (ports.map fun port => toString port.Port ++ "/" ++ port.Protocol) ∧
    formatPorts [] = "" ∧
    ((PrepareForSubmariner c api none none ports).err = none →
      (PrepareForSubmariner c api none none ports).reporter =
        [.started prepareStartedMsg,
         .succeeded ("Opened internal ports " ++ goQ (formatPorts ports)
           ++ " for intra-cluster communications on RHOS")]) := by
  refine ⟨?_, rfl, ?_⟩
  · simp [formatPorts, formatPorts_foldl_eq_map]
  · intro h
    cases hoi : (openInternalPorts c api c.InfraID ports).err with
    | some e => simp [PrepareForSubmariner, hoi] at h
    | none => simp [PrepareForSubmariner, hoi]

/-- C10 witness at a concrete port list and environment. -/
theorem formatPorts_spec_witness :
    formatPorts [⟨4500, "UDP"⟩, ⟨500, "UDP"⟩] = "4500/UDP, 500/UDP" ∧
    (PrepareForSubmariner cinfo apiGroupExists none none [⟨4500, "UDP"⟩, ⟨500, "UDP"⟩]).reporter =
      [.started prepareStartedMsg,
       .succeeded
         "Opened internal ports \"4500/UDP, 500/UDP\" for intra-cluster communications on RHOS"] := by
  constructor
  · rfl
  · exact (formatPorts_spec [⟨4500, "UDP"⟩, ⟨500, "UDP"⟩] cinfo apiGroupExists).2.2 rfl

/-- C5: every create/update/delete issued against the security-group API is
followed by a wait on its future before the function returns: a
CreateOrUpdate of `openInternalPorts` that returns a future is immediately
followed by the wait and a nil return means that wait succeeded (a wait
error is wrapped and returned); `removeInternalFirewallRules` returns nil
only when the update wait, the Delete and the delete wait all completed,
and an error from either wait is wrapped and returned. -/
theorem security_group_ops_wait_before_return (c : CloudInfo) (api : AzureApi)
    (infraID : String) (ports : List PortSpec) :
    (∀ rg gn g,
      ApiCall.nsgCreateOrUpdate rg gn g ∈ (openInternalPorts c api infraID ports).calls →
      api.nsgCreateOrUpdate rg gn g = .ok () →
      ∃ l, (openInternalPorts c api infraID ports).calls =
        l ++ [ApiCall.nsgCreateOrUpdate rg gn g, ApiCall.nsgWaitCreateOrUpdate]) ∧
    ((openInternalPorts c api infraID ports).err = none →
      (∃ rg gn g, ApiCall.nsgCreateOrUpdate rg gn g ∈
        (openInternalPorts c api infraID ports).calls) →
      api.nsgWaitCreate = none) ∧
    (∀ rg gn g e,
      ApiCall.nsgCreateOrUpdate rg gn g ∈ (openInternalPorts c api infraID ports).calls →
      api.nsgCreateOrUpdate rg gn g = .ok () → api.nsgWaitCreate = some e →
      (openInternalPorts c api infraID ports).err =
        some (wrapErr ("Error creating  security group "
          ++ (infraID ++ internalSecurityGroupSuffix) ++ " ") e)) ∧
    ((removeInternalFirewallRules c api infraID).err = none →
      api.nsgWaitUpdate = none ∧ api.nsgWaitDelete = none ∧
      ∃ sg, api.nsgGet c.BaseGroupName (infraID ++ internalSecurityGroupSuffix) = .ok sg ∧
        (removeInternalFirewallRules c api infraID).calls =
          [.nsgGet c.BaseGroupName (infraID ++ internalSecurityGroupSuffix),
           .nsgCreateOrUpdate c.BaseGroupName (infraID ++ internalSecurityGroupSuffix)
             { sg with Subnets := none },
           .nsgWaitCreateOrUpdate,
           .nsgDelete c.BaseGroupName (infraID ++ internalSecurityGroupSuffix),
           .nsgWaitDelete]) ∧
    (∀ sg e, api.nsgGet c.BaseGroupName (infraID ++ internalSecurityGroupSuffix) = .ok sg →
      api.nsgCreateOrUpdate c.BaseGroupName (infraID ++ internalSecurityGroupSuffix)
        { sg with Subnets := none } = .ok () →
      api.nsgWaitUpdate = some e →
      (removeInternalFirewallRules c api infraID).err =
        some (wrapErr ("waiting for security group  "
          ++ goQ (infraID ++ internalSecurityGroupSuffix) ++ " to be updated failed") e)) ∧
    (∀ sg e, api.nsgGet c.BaseGroupName (infraID ++ internalSecurityGroupSuffix) = .ok sg →
      api.nsgCreateOrUpdate c.BaseGroupName (infraID ++ internalSecurityGroupSuffix)
        { sg with Subnets := none } = .ok () →
      api.nsgWaitUpdate = none →
      api.nsgDelete c.BaseGroupName (infraID ++ internalSecurityGroupSuffix) = .ok () →
      api.nsgWaitDelete = some e →
      (removeInternalFirewallRules c api infraID).err =
        some (wrapErr ("waiting for security group  "
          ++ goQ (infraID ++ internalSecurityGroupSuffix) ++ " to be deleted failed") e)) := by
  refine ⟨?_, ?_, ?_, ?_, ?_, ?_⟩
  · intro rg gn g hmem hok
    cases hg : api.nsgGet c.BaseGroupName (infraID ++ internalSecurityGroupSuffix) with
    | ok sg =>
      rw [openInternalPorts_group_present c api infraID ports sg hg] at hmem
      simp at hmem
    | error e =>
      cases hw : api.subnetGet c.BaseGroupName (infraID ++ "-vnet")
          (infraID ++ "-worker-subnet") with
      | error eW =>
        rw [openInternalPorts_worker_subnet_error c api infraID ports e eW hg hw] at hmem
        simp at hmem
      | ok w =>
        cases hm : api.subnetGet c.BaseGroupName (infraID ++ "-vnet")
            (infraID ++ "-master-subnet") with
        | error eM =>
          rw [openInternalPorts_master_subnet_error c api infraID ports e w eM hg hw hm] at hmem
          simp at hmem
        | ok m =>
          cases hc : api.nsgCreateOrUpdate c.BaseGroupName
              (infraID ++ internalSecurityGroupSuffix) (builtSecurityGroup c infraID ports w m) with
          | error eC =>
            rw [openInternalPorts_createOrUpdate_error c api infraID ports e w m eC
              hg hw hm hc] at hmem
            simp at hmem
            obtain ⟨hrg, hgn, hgq⟩ := hmem
            subst hrg; subst hgn; subst hgq
            rw [hc] at hok
            exact Except.noConfusion hok
          | ok u =>
            cases u
            rw [openInternalPorts_createOrUpdate_ok c api infraID ports e w m hg hw hm hc] at hmem
            simp at hmem
            obtain ⟨hrg, hgn, hgq⟩ := hmem
            subst hrg; subst hgn; subst hgq
            rw [openInternalPorts_createOrUpdate_ok c api infraID ports e w m hg hw hm hc]
            exact ⟨[.nsgGet c.BaseGroupName (infraID ++ internalSecurityGroupSuffix),
              .subnetGet c.BaseGroupName (infraID ++ "-vnet") (infraID ++ "-worker-subnet"),
              .subnetGet c.BaseGroupName (infraID ++ "-vnet") (infraID ++ "-master-subnet")],
              by simp⟩
  · intro herr hex
    obtain ⟨rg, gn, g, hmem⟩ := hex
    cases hg : api.nsgGet c.BaseGroupName (infraID ++ internalSecurityGroupSuffix) with
    | ok sg =>
      rw [openInternalPorts_group_present c api infraID ports sg hg] at hmem
      simp at hmem
    | error e =>
      cases hw : api.subnetGet c.BaseGroupName (infraID ++ "-vnet")
          (infraID ++ "-worker-subnet") with
      | error eW =>
        rw [openInternalPorts_worker_subnet_error c api infraID ports e eW hg hw] at hmem
        simp at hmem
      | ok w =>
        cases hm : api.subnetGet c.BaseGroupName (infraID ++ "-vnet")
            (infraID ++ "-master-subnet") with
        | error eM =>
          rw [openInternalPorts_master_subnet_error c api infraID ports e w eM hg hw hm] at hmem
          simp at hmem
        | ok m =>
          cases hc : api.nsgCreateOrUpdate c.BaseGroupName
              (infraID ++ internalSecurityGroupSuffix) (builtSecurityGroup c infraID ports w m) with
          | error eC =>
            rw [openInternalPorts_createOrUpdate_error c api infraID ports e w m eC
              hg hw hm hc] at herr
            simp at herr
          | ok u =>
            cases u
            rw [openInternalPorts_createOrUpdate_ok c api infraID ports e w m hg hw hm hc] at herr
            cases hwc : api.nsgWaitCreate with
            | some e2 => rw [hwc] at herr; simp [wrapErrOpt] at herr
            | none => rfl
  · intro rg gn g e2 hmem hok hwc
    cases hg : api.nsgGet c.BaseGroupName (infraID ++ internalSecurityGroupSuffix) with
    | ok sg =>
      rw [openInternalPorts_group_present c api infraID ports sg hg] at hmem
      simp at hmem
    | error e =>
      cases hw : api.subnetGet c.BaseGroupName (infraID ++ "-vnet")
          (infraID ++ "-worker-subnet") with
      | error eW =>
        rw [openInternalPorts_worker_subnet_error c api infraID ports e eW hg hw] at hmem
        simp at hmem
      | ok w =>
        cases hm : api.subnetGet c.BaseGroupName (infraID ++ "-vnet")
            (infraID ++ "-master-subnet") with
        | error eM =>
          rw [openInternalPorts_master_subnet_error c api infraID ports e w eM hg hw hm] at hmem
          simp at hmem
        | ok m =>
          cases hc : api.nsgCreateOrUpdate c.BaseGroupName
              (infraID ++ internalSecurityGroupSuffix) (builtSecurityGroup c infraID ports w m) with
          | error eC =>
            rw [openInternalPorts_createOrUpdate_error c api infraID ports e w m eC
              hg hw hm hc] at hmem
            simp at hmem
            obtain ⟨hrg, hgn, hgq⟩ := hmem
            subst hrg; subst hgn; subst hgq
            rw [hc] at hok
            exact Except.noConfusion hok
          | ok u =>
            cases u
            rw [openInternalPorts_createOrUpdate_ok c api infraID ports e w m hg hw hm hc, hwc]
            rfl
  · intro herr
    cases hg : api.nsgGet c.BaseGroupName (infraID ++ internalSecurityGroupSuffix) with
    | error e =>
      rw [removeInternalFirewallRules_get_error c api infraID e hg] at herr
      simp at herr
    | ok sg =>
      cases hu : api.nsgCreateOrUpdate c.BaseGroupName (infraID ++ internalSecurityGroupSuffix)
          { sg with Subnets := none } with
      | error e =>
        rw [removeInternalFirewallRules_update_error c api infraID sg e hg hu] at herr
        simp at herr
      | ok u =>
        cases u
        cases hwu : api.nsgWaitUpdate with
        | some e =>
          rw [removeInternalFirewallRules_wait_update_error c api infraID sg e hg hu hwu] at herr
          simp at herr
        | none =>
          cases hd : api.nsgDelete c.BaseGroupName (infraID ++ internalSecurityGroupSuffix) with
          | error e =>
            rw [removeInternalFirewallRules_delete_error c api infraID sg e hg hu hwu hd] at herr
            simp at herr
          | ok u2 =>
            cases u2
            have hlem := removeInternalFirewallRules_delete_ok c api infraID sg hg hu hwu hd
            rw [hlem] at herr
            cases hwd : api.nsgWaitDelete with
            | some e => rw [hwd] at herr; simp [wrapErrOpt] at herr
            | none => exact ⟨rfl, rfl, sg, rfl, by rw [hlem]⟩
  · intro sg e hg hu hwu
    rw [removeInternalFirewallRules_wait_update_error c api infraID sg e hg hu hwu]
  · intro sg e hg hu hwu hd hwd
    rw [removeInternalFirewallRules_delete_ok c api infraID sg hg hu hwu hd, hwd]
    rfl

/-- C5 witness: in concrete environments the successful paths issue their
waits and the wait outcomes are nil. -/
theorem security_group_ops_wait_before_return_witness :
    (openInternalPorts cinfo apiFresh "infra" []).err = none ∧
    apiFresh.nsgWaitCreate = none ∧
    (removeInternalFirewallRules cinfo apiGroupExists "infra").err = none ∧
    apiGroupExists.nsgWaitUpdate = none ∧ apiGroupExists.nsgWaitDelete = none := by
  have h := security_group_ops_wait_before_return cinfo apiFresh "infra" []
  have h2 := security_group_ops_wait_before_return cinfo apiGroupExists "infra" []
  refine ⟨by decide, ?_, by decide, ?_, ?_⟩
  · exact h.2.1 (by decide) ⟨"rg", "infra-nsg",
      builtSecurityGroup cinfo "infra" [] ⟨"infra-worker-subnet"⟩ ⟨"infra-master-subnet"⟩,
      by decide⟩
  · exact ((h2.2.2.2.1) (by decide)).1
  · exact ((h2.2.2.2.1) (by decide)).2.1

/-- C6: `removeInternalFirewallRules` tears down in a fixed order — any
Delete it issues targets the group `infraID ++ "-nsg"` and is preceded by
exactly the Get, the CreateOrUpdate writing the group back with `Subnets`
nil, and the successful wait for that update; and if the Get, the update
call or the update wait fails, no Delete is issued at all, so a group that
existed before the call still exists after the issued calls are applied. -/
theorem removeInternalFirewallRules_ordered_teardown (c : CloudInfo) (api : AzureApi)
    (infraID : String) (groups : List (String × String)) :
    (∀ rg gn, ApiCall.nsgDelete rg gn ∈ (removeInternalFirewallRules c api infraID).calls →
      rg = c.BaseGroupName ∧ gn = infraID ++ internalSecurityGroupSuffix ∧
      ∃ sg, api.nsgGet c.BaseGroupName (infraID ++ internalSecurityGroupSuffix) = .ok sg ∧
        api.nsgCreateOrUpdate c.BaseGroupName (infraID ++ internalSecurityGroupSuffix)
          { sg with Subnets := none } = .ok () ∧
        api.nsgWaitUpdate = none ∧
        (removeInternalFirewallRules c api infraID).calls.take 4 =
          [.nsgGet c.BaseGroupName (infraID ++ internalSecurityGroupSuffix),
           .nsgCreateOrUpdate c.BaseGroupName (infraID ++ internalSecurityGroupSuffix)
             { sg with Subnets := none },
           .nsgWaitCreateOrUpdate,
           .nsgDelete c.BaseGroupName (infraID ++ internalSecurityGroupSuffix)]) ∧
    (((∃ e, api.nsgGet c.BaseGroupName (infraID ++ internalSecurityGroupSuffix) = .error e) ∨
      (∃ sg e, api.nsgGet c.BaseGroupName (infraID ++ internalSecurityGroupSuffix) = .ok sg ∧
        api.nsgCreateOrUpdate c.BaseGroupName (infraID ++ internalSecurityGroupSuffix)
          { sg with Subnets := none } = .error e) ∨
      (∃ sg, api.nsgGet c.BaseGroupName (infraID ++ internalSecurityGroupSuffix) = .ok sg ∧
        api.nsgCreateOrUpdate c.BaseGroupName (infraID ++ internalSecurityGroupSuffix)
          { sg with Subnets := none } = .ok () ∧
        ∃ e, api.nsgWaitUpdate = some e)) →
      (∀ rg gn, ApiCall.nsgDelete rg gn ∉ (removeInternalFirewallRules c api infraID).calls) ∧
      ((c.BaseGroupName, infraID ++ internalSecurityGroupSuffix) ∈ groups →
        (c.BaseGroupName, infraID ++ internalSecurityGroupSuffix) ∈
          applyCalls groups (removeInternalFirewallRules c api infraID).calls)) := by
  constructor
  · intro rg gn hmem
    cases hg : api.nsgGet c.BaseGroupName (infraID ++ internalSecurityGroupSuffix) with
    | error e =>
      rw [removeInternalFirewallRules_get_error c api infraID e hg] at hmem
      simp at hmem
    | ok sg =>
      cases hu : api.nsgCreateOrUpdate c.BaseGroupName (infraID ++ internalSecurityGroupSuffix)
          { sg with Subnets := none } with
      | error e =>
        rw [removeInternalFirewallRules_update_error c api infraID sg e hg hu] at hmem
        simp at hmem
      | ok u =>
        cases u
        cases hwu : api.nsgWaitUpdate with
        | some e =>
          rw [removeInternalFirewallRules_wait_update_error c api infraID sg e hg hu hwu] at hmem
          simp at hmem
        | none =>
          cases hd : api.nsgDelete c.BaseGroupName (infraID ++ internalSecurityGroupSuffix) with
          | error e =>
            rw [removeInternalFirewallRules_delete_error c api infraID sg e hg hu hwu hd] at hmem
            simp at hmem
            obtain ⟨hrg, hgn⟩ := hmem
            subst hrg; subst hgn
            exact ⟨rfl, rfl, sg, rfl, hu, rfl,
              by rw [removeInternalFirewallRules_delete_error c api infraID sg e hg hu hwu hd];
                 rfl⟩
          | ok u2 =>
            cases u2
            rw [removeInternalFirewallRules_delete_ok c api infraID sg hg hu hwu hd] at hmem
            simp at hmem
            obtain ⟨hrg, hgn⟩ := hmem
            subst hrg; subst hgn
            exact ⟨rfl, rfl, sg, rfl, hu, rfl,
              by rw [removeInternalFirewallRules_delete_ok c api infraID sg hg hu hwu hd]; rfl⟩
  · intro hfail
    rcases hfail with ⟨e, hg⟩ | ⟨sg, e, hg, hu⟩ | ⟨sg, hg, hu, e, hwu⟩
    · rw [removeInternalFirewallRules_get_error c api infraID e hg]
      refine ⟨by intro rg gn; simp, ?_⟩
      intro hmem
      simpa [applyCalls, applyCall] using hmem
    · rw [removeInternalFirewallRules_update_error c api infraID sg e hg hu]
      refine ⟨by intro rg gn; simp, ?_⟩
      intro hmem
      simp only [applyCalls, List.foldl_cons, List.foldl_nil, applyCall]
      rw [if_pos hmem]
      exact hmem
    · rw [removeInternalFirewallRules_wait_update_error c api infraID sg e hg hu hwu]
      refine ⟨by intro rg gn; simp, ?_⟩
      intro hmem
      simp only [applyCalls, List.foldl_cons, List.foldl_nil, applyCall]
      rw [if_pos hmem]
      exact hmem

/-- C6 witness: with the group missing, the cleanup issues no Delete and a
previously existing group survives the issued calls. -/
theorem removeInternalFirewallRules_ordered_teardown_witness :
    ApiCall.nsgDelete "rg" "infra-nsg" ∉
      (removeInternalFirewallRules cinfo apiFresh "infra").calls ∧
    ("rg", "infra-nsg") ∈
      applyCalls [("rg", "infra-nsg")] (removeInternalFirewallRules cinfo apiFresh "infra").calls := by
  have h := (removeInternalFirewallRules_ordered_teardown cinfo apiFresh "infra"
    [("rg", "infra-nsg")]).2 (Or.inl ⟨"nf", rfl⟩)
  exact ⟨h.1 "rg" "infra-nsg", h.2 (by decide)⟩

/-- C7: when the internal group does not yet exist, `openInternalPorts`
looks up the worker and master subnets of `infraID ++ "-vnet"`; a failing
lookup yields a wrapped error with no CreateOrUpdate issued (master is not
even looked up if worker fails), and when both succeed the submitted group
carries exactly those two subnets. -/
theorem openInternalPorts_subnet_lookup_spec (c : CloudInfo) (api : AzureApi)
    (infraID : String) (ports : List PortSpec) (e : Err)
    (hget : api.nsgGet c.BaseGroupName (infraID ++ internalSecurityGroupSuffix) = .error e) :
    (∀ eW, api.subnetGet c.BaseGroupName (infraID ++ "-vnet") (infraID ++ "-worker-subnet") =
        .error eW →
      (openInternalPorts c api infraID ports).err =
        some (wrapErr ("failed to retrieve subnet " ++ goQ (infraID ++ "-worker-subnet"))
          (wrapErr ("error getting the subnet " ++ goQ eW) eW)) ∧
      (∀ rg gn g, ApiCall.nsgCreateOrUpdate rg gn g ∉
        (openInternalPorts c api infraID ports).calls)) ∧
    (∀ w eM, api.subnetGet c.BaseGroupName (infraID ++ "-vnet") (infraID ++ "-worker-subnet") =
        .ok w →
      api.subnetGet c.BaseGroupName (infraID ++ "-vnet") (infraID ++ "-master-subnet") =
        .error eM →
      (openInternalPorts c api infraID ports).err =
        some (wrapErr ("failed to retrieve subnet " ++ goQ (infraID ++ "-master-subnet"))
          (wrapErr ("error getting the subnet " ++ goQ eM) eM)) ∧
      (∀ rg gn g, ApiCall.nsgCreateOrUpdate rg gn g ∉
        (openInternalPorts c api infraID ports).calls)) ∧
    (∀ w m, api.subnetGet c.BaseGroupName (infraID ++ "-vnet") (infraID ++ "-worker-subnet") =
        .ok w →
      api.subnetGet c.BaseGroupName (infraID ++ "-vnet") (infraID ++ "-master-subnet") = .ok m →
      ApiCall.subnetGet c.BaseGroupName (infraID ++ "-vnet") (infraID ++ "-worker-subnet") ∈
        (openInternalPorts c api infraID ports).calls ∧
      ApiCall.subnetGet c.BaseGroupName (infraID ++ "-vnet") (infraID ++ "-master-subnet") ∈
        (openInternalPorts c api infraID ports).calls ∧
      ApiCall.nsgCreateOrUpdate c.BaseGroupName (infraID ++ internalSecurityGroupSuffix)
        (builtSecurityGroup c infraID ports w m) ∈
        (openInternalPorts c api infraID ports).calls ∧
      (builtSecurityGroup c infraID ports w m).Subnets = some [w, m]) := by
  refine ⟨?_, ?_, ?_⟩
  · intro eW hw
    rw [openInternalPorts_worker_subnet_error c api infraID ports e eW hget hw]
    exact ⟨rfl, by intro rg gn g; simp⟩
  · intro w eM hw hm
    rw [openInternalPorts_master_subnet_error c api infraID ports e w eM hget hw hm]
    exact ⟨rfl, by intro rg gn g; simp⟩
  · intro w m hw hm
    cases hc : api.nsgCreateOrUpdate c.BaseGroupName (infraID ++ internalSecurityGroupSuffix)
        (builtSecurityGroup c infraID ports w m) with
    | error eC =>
      rw [openInternalPorts_createOrUpdate_error c api infraID ports e w m eC hget hw hm hc]
      exact ⟨by simp, by simp, by simp, rfl⟩
    | ok u =>
      cases u
      rw [openInternalPorts_createOrUpdate_ok c api infraID ports e w m hget hw hm hc]
      exact ⟨by simp, by simp, by simp, rfl⟩

/-- C7 witness: in the concrete fresh environment both subnets are fetched
and the submitted group is associated with exactly those two subnets. -/
theorem openInternalPorts_subnet_lookup_spec_witness :
    (builtSecurityGroup cinfo "infra" [] ⟨"infra-worker-subnet"⟩ ⟨"infra-master-subnet"⟩).Subnets =
      some [⟨"infra-worker-subnet"⟩, ⟨"infra-master-subnet"⟩] ∧
    ApiCall.nsgCreateOrUpdate "rg" "infra-nsg"
      (builtSecurityGroup cinfo "infra" [] ⟨"infra-worker-subnet"⟩ ⟨"infra-master-subnet"⟩) ∈
      (openInternalPorts cinfo apiFresh "infra" []).calls := by
  have h := (openInternalPorts_subnet_lookup_spec cinfo apiFresh "infra" [] "nf" rfl).2.2
    ⟨"infra-worker-subnet"⟩ ⟨"infra-master-subnet"⟩ rfl rfl
  exact ⟨h.2.2.2, h.2.2.1⟩

/-- A value already in signed-32-bit range is unchanged by `int32ofInt`. -/
theorem int32ofInt_eq_self (n : Int) (h0 : 0 ≤ n) (h1 : n < 2 ^ 31) : int32ofInt n = n := by
  have e31 : (2 : Int) ^ 31 = 2147483648 := by norm_num
  have e32 : (2 : Int) ^ 32 = 4294967296 := by norm_num
  unfold int32ofInt
  rw [e31] at h1
  rw [e31, e32]
  rw [Int.emod_eq_of_lt (by omega) (by omega)]
  omega

/-- The rule loop produces one rule per port. -/
theorem internalSecurityRulesAux_length (c : CloudInfo) :
    ∀ (ports : List PortSpec) (i : Nat),
      (internalSecurityRulesAux c i ports).length = ports.length
  | [], _ => rfl
  | _ :: rest, i => by
      simp [internalSecurityRulesAux, internalSecurityRulesAux_length c rest (i + 1)]

/-- The j-th rule produced by the loop started at index i comes from the
j-th port and has priority `int32(basePriority + (i + j))`. -/
theorem internalSecurityRulesAux_getElem (c : CloudInfo) :
    ∀ (ports : List PortSpec) (i j : Nat) (p : PortSpec), ports[j]? = some p →
      (internalSecurityRulesAux c i ports)[j]? =
        some (createSecurityRule c allNetworkCIDR allNetworkCIDR p.Protocol p.Port
          (int32ofInt (basePriority + ((i + j : Nat) : Int))))
  | [], _, j, p => by simp
  | q :: rest, i, 0, p => by
      intro h
      simp only [List.getElem?_cons_zero, Option.some_inj] at h
      subst h
      simp [internalSecurityRulesAux]
  | q :: rest, i, j + 1, p => by
      intro h
      simp only [List.getElem?_cons_succ] at h
      have ih := internalSecurityRulesAux_getElem c rest (i + 1) j p h
      rw [show i + 1 + j = i + (j + 1) by omega] at ih
      simpa [internalSecurityRulesAux] using ih

/-- Indexing with `some` implies the index is in bounds. -/
theorem getElemQ_lt {α : Type} {l : List α} {i : Nat} {a : α} (h : l[i]? = some a) :
    i < l.length := by
  by_contra hlt
  rw [List.getElem?_eq_none (by omega)] at h
  exact Option.noConfusion h

/-- C8: the rule list `openInternalPorts` submits has one rule per port; the
rule of the i-th port is named `"Submariner-Internal-" ++ protocol ++ "-"
++ port`, has destination range `"port-port"`, source range `"*"`, source
and destination prefix `"0.0.0.0/0"`, direction Inbound, access Allow and
priority `100 + i` (the port count keeps `int32(100+i)` from wrapping), so
rules of distinct indices carry distinct priorities; and the submitted
group carries exactly this rule list. -/
theorem openInternalPorts_rule_construction (c : CloudInfo) (ports : List PortSpec)
    (i j : Nat) (p q : PortSpec)
    (hbound : (100 : Int) + ports.length ≤ 2 ^ 31)
    (hip : ports[i]? = some p) (hjq : ports[j]? = some q) (hij : i ≠ j) :
    (internalSecurityRules c ports).length = ports.length ∧
    (internalSecurityRules c ports)[i]? = some
      { Name := "Submariner-Internal-" ++ p.Protocol ++ "-" ++ toString p.Port
        Protocol := p.Protocol
        DestinationPortRange := toString p.Port ++ "-" ++ toString p.Port
        SourceAddressPrefix := "0.0.0.0/0"
        DestinationAddressPrefix := "0.0.0.0/0"
        SourcePortRange := "*"
        Access := "Allow"
        Direction := "Inbound"
        Priority := 100 + (i : Int) } ∧
    (∀ rI rJ, (internalSecurityRules c ports)[i]? = some rI →
      (internalSecurityRules c ports)[j]? = some rJ → rI.Priority ≠ rJ.Priority) ∧
    (∀ infraID w m, (builtSecurityGroup c infraID ports w m).SecurityRules =
      some (internalSecurityRules c ports)) := by
  have e31 : (2 : Int) ^ 31 = 2147483648 := by norm_num
  rw [e31] at hbound
  have hilt : i < ports.length := getElemQ_lt hip
  have hjlt : j < ports.length := getElemQ_lt hjq
  have hb : basePriority = 100 := rfl
  have hi32 : int32ofInt (basePriority + ((0 + i : Nat) : Int)) = 100 + (i : Int) := by
    rw [show ((0 + i : Nat) : Int) = (i : Int) by omega, hb]
    exact int32ofInt_eq_self _ (by omega) (by rw [e31]; omega)
  have hj32 : int32ofInt (basePriority + ((0 + j : Nat) : Int)) = 100 + (j : Int) := by
    rw [show ((0 + j : Nat) : Int) = (j : Int) by omega, hb]
    exact int32ofInt_eq_self _ (by omega) (by rw [e31]; omega)
  have hgi := internalSecurityRulesAux_getElem c ports 0 i p hip
  have hgj := internalSecurityRulesAux_getElem c ports 0 j q hjq
  rw [hi32] at hgi
  rw [hj32] at hgj
  refine ⟨?_, ?_, ?_, ?_⟩
  · exact internalSecurityRulesAux_length c ports 0
  · rw [internalSecurityRules, hgi]
    rfl
  · intro rI rJ hI hJ
    rw [internalSecurityRules, hgi] at hI
    rw [internalSecurityRules, hgj] at hJ
    simp only [Option.some_inj] at hI hJ
    subst hI; subst hJ
    simp only [createSecurityRule]
    intro hpe
    have : (i : Int) = (j : Int) := by omega
    exact hij (by omega)
  · intro infraID w m
    rfl

/-- C8 witness at a concrete two-port list. -/
theorem openInternalPorts_rule_construction_witness :
    (100 : Int) + ([⟨4500, "UDP"⟩, ⟨500, "UDP"⟩] : List PortSpec).length ≤ 2 ^ 31 ∧
    (internalSecurityRules cinfo [⟨4500, "UDP"⟩, ⟨500, "UDP"⟩]).length = 2 ∧
    (internalSecurityRules cinfo [⟨4500, "UDP"⟩, ⟨500, "UDP"⟩])[0]? = some
      { Name := "Submariner-Internal-UDP-4500"
        Protocol := "UDP"
        DestinationPortRange := "4500-4500"
        SourceAddressPrefix := "0.0.0.0/0"
        DestinationAddressPrefix := "0.0.0.0/0"
        SourcePortRange := "*"
        Access := "Allow"
        Direction := "Inbound"
        Priority := 100 } := by
  have h := openInternalPorts_rule_construction cinfo [⟨4500, "UDP"⟩, ⟨500, "UDP"⟩] 0 1
    ⟨4500, "UDP"⟩ ⟨500, "UDP"⟩ (by decide) rfl rfl (by decide)
  exact ⟨by decide, h.1, h.2.1⟩

end CloudPrepare
